import Mathlib

/-!
Shallow embedding of the ToDoAppFastAPI repository (src/main.py, src/crud.py,
src/schemas.py, src/database.py).  The relational store is modelled as lists
of rows with auto-incremented integer ids; each SQLAlchemy query used by the
source is translated to the corresponding list operation.  `models.py` and
`auth.py` are not under src/, so the column default for `Task.completed` and
the token primitive are modelled from the spec where noted.
-/

namespace Todo

/-- A row of the `users` table (models.User): id, username, email,
hashed_password, is_admin. -/
structure UserRec where
  id : Nat
  username : String
  email : String
  hashed_password : String
  is_admin : Bool
  deriving Repr, DecidableEq

/-- A row of the `tasks` table (models.Task): id, title, description,
completed, owner_id. -/
structure TaskRec where
  id : Nat
  title : String
  description : Option String
  completed : Bool
  owner_id : Nat
  deriving Repr, DecidableEq

/-- The database state: the two tables plus the auto-increment counters the
storage engine keeps for primary keys. -/
structure DB where
  users : List UserRec
  tasks : List TaskRec
  nextUserId : Nat
  nextTaskId : Nat
  deriving Repr, DecidableEq

namespace schemas

/-- schemas.UserCreate: username, email, password required; is_admin
defaults to false (the pydantic default is applied before the value
reaches crud, so the field is plain Bool here). -/
structure UserCreate where
  username : String
  email : String
  password : String
  is_admin : Bool
  deriving Repr, DecidableEq

/-- schemas.UserUpdate: every field optional; `none` models a key omitted
from the request payload (pydantic exclude_unset semantics). -/
structure UserUpdate where
  email : Option String
  password : Option String
  is_admin : Option Bool
  deriving Repr, DecidableEq

/-- schemas.User: the outward representation of a user.  It declares only
id, username, email and is_admin; from_attributes conversion reads exactly
these attributes off the row. -/
structure User where
  id : Nat
  username : String
  email : String
  is_admin : Bool
  deriving Repr, DecidableEq

/-- schemas.TaskCreate: title required, description optional.  The schema
declares no `completed` field, so a request body carrying one is stripped
by validation before crud sees it. -/
structure TaskCreate where
  title : String
  description : Option String
  deriving Repr, DecidableEq

/-- schemas.TaskUpdate: every field optional; `none` models a key omitted
from the request payload (pydantic exclude_unset semantics). -/
structure TaskUpdate where
  title : Option String
  description : Option String
  completed : Option Bool
  deriving Repr, DecidableEq

/-- schemas.Task: the outward representation of a task (no owner_id). -/
structure Task where
  id : Nat
  title : String
  description : Option String
  completed : Bool
  deriving Repr, DecidableEq

end schemas

/-- from_attributes conversion of a user row into schemas.User: reads the
four declared attributes and nothing else. -/
def toSchemaUser (u : UserRec) : schemas.User :=
  { id := u.id, username := u.username, email := u.email, is_admin := u.is_admin }

/-- from_attributes conversion of a task row into schemas.Task. -/
def toSchemaTask (t : TaskRec) : schemas.Task :=
  { id := t.id, title := t.title, description := t.description, completed := t.completed }

namespace crud

/-- crud.get_password_hash: pwd_context.hash.  The hasher is an external
primitive (spec §1 excludes it from scope); modelled as a tagged injection
so that verification below is its exact inverse test. -/
def get_password_hash (password : String) : String :=
  "bcrypt$" ++ password

/-- crud.verify_password: pwd_context.verify, modelled as agreement with
the modelled hash. -/
def verify_password (plain_password hashed_password : String) : Bool :=
  get_password_hash plain_password == hashed_password

/-- crud.get_user_by_username: filter by username, `.first()`. -/
def get_user_by_username (db : DB) (username : String) : Option UserRec :=
  db.users.find? (fun u => u.username == username)

/-- crud.get_user: filter by id, `.first()`. -/
def get_user (db : DB) (user_id : Nat) : Option UserRec :=
  db.users.find? (fun u => u.id == user_id)

/-- crud.get_users: offset/limit page of the users table. -/
def get_users (db : DB) (skip limit : Nat) : List UserRec :=
  (db.users.drop skip).take limit

/-- crud.create_user: hashes the password, inserts the row (the store
assigns the next id), returns the inserted row. -/
def create_user (db : DB) (user : schemas.UserCreate) : DB × UserRec :=
  let db_user : UserRec :=
    { id := db.nextUserId
      username := user.username
      email := user.email
      hashed_password := get_password_hash user.password
      is_admin := user.is_admin }
  ({ db with users := db.users ++ [db_user], nextUserId := db.nextUserId + 1 }, db_user)

/-- The per-row effect of crud.update_user's setattr loop: each key present
in model_dump(exclude_unset=True) is written onto the row; a present
`password` key is hashed into hashed_password first. -/
def applyUserUpdate (u : UserRec) (upd : schemas.UserUpdate) : UserRec :=
  let u1 := match upd.email with
    | some e => { u with email := e }
    | none => u
  let u2 := match upd.password with
    | some p => { u1 with hashed_password := get_password_hash p }
    | none => u1
  match upd.is_admin with
  | some a => { u2 with is_admin := a }
  | none => u2

/-- crud.update_user: load the row by id, return the not-found sentinel if
absent, otherwise apply the present fields, commit, return the row. -/
def update_user (db : DB) (user_id : Nat) (user_update : schemas.UserUpdate) :
    DB × Option UserRec :=
  match get_user db user_id with
  | none => (db, none)
  | some db_user =>
    let updated := applyUserUpdate db_user user_update
    ({ db with users := db.users.map (fun u => if u.id == user_id then updated else u) },
      some updated)

/-- crud.delete_user: load by id, delete the row, return the pre-deletion
row (or the not-found sentinel). -/
def delete_user (db : DB) (user_id : Nat) : DB × Option UserRec :=
  match get_user db user_id with
  | none => (db, none)
  | some db_user =>
    ({ db with users := db.users.filter (fun u => u.id != user_id) }, some db_user)

/-- crud.create_task: inserts models.Task(**task.model_dump(), owner_id=user_id).
`completed` is not in TaskCreate's dump; its value is the models.Task column
default.  Modelled from the spec: models.py is not under src/, and spec §3
gives `completed (boolean, default false)`. -/
def create_task (db : DB) (task : schemas.TaskCreate) (user_id : Nat) : DB × TaskRec :=
  let db_task : TaskRec :=
    { id := db.nextTaskId
      title := task.title
      description := task.description
      completed := false
      owner_id := user_id }
  ({ db with tasks := db.tasks ++ [db_task], nextTaskId := db.nextTaskId + 1 }, db_task)

/-- crud.get_tasks: filter by owner_id, then offset/limit. -/
def get_tasks (db : DB) (user_id : Nat) (skip limit : Nat) : List TaskRec :=
  (((db.tasks.filter (fun t => t.owner_id == user_id)).drop skip).take limit)

/-- crud.get_task: filter by id, `.first()`; takes no caller. -/
def get_task (db : DB) (task_id : Nat) : Option TaskRec :=
  db.tasks.find? (fun t => t.id == task_id)

/-- The per-row effect of crud.update_task's setattr loop over
model_dump(exclude_unset=True). -/
def applyTaskUpdate (t : TaskRec) (upd : schemas.TaskUpdate) : TaskRec :=
  let t1 := match upd.title with
    | some s => { t with title := s }
    | none => t
  let t2 := match upd.description with
    | some s => { t1 with description := some s }
    | none => t1
  match upd.completed with
  | some b => { t2 with completed := b }
  | none => t2

/-- crud.update_task: re-query the row by id, not-found sentinel if absent,
else apply the present fields, commit, return the row. -/
def update_task (db : DB) (task_id : Nat) (task_update : schemas.TaskUpdate) :
    DB × Option TaskRec :=
  match get_task db task_id with
  | none => (db, none)
  | some db_task =>
    let updated := applyTaskUpdate db_task task_update
    ({ db with tasks := db.tasks.map (fun t => if t.id == task_id then updated else t) },
      some updated)

/-- crud.delete_task: load by id, delete the row, return the pre-deletion
row (or the not-found sentinel). -/
def delete_task (db : DB) (task_id : Nat) : DB × Option TaskRec :=
  match get_task db task_id with
  | none => (db, none)
  | some db_task =>
    ({ db with tasks := db.tasks.filter (fun t => t.id != task_id) }, some db_task)

end crud

/-- An HTTP outcome: a 200 body of type α, or an error status with its
detail string (raised HTTPException). -/
inductive Resp (α : Type) where
  | ok : α → Resp α
  | err : Nat → String → Resp α
  deriving Repr, DecidableEq

/-- The login success body: {"access_token": ..., "token_type": "bearer"}. -/
structure TokenOut where
  access_token : String
  token_type : String
  deriving Repr, DecidableEq

/-- Modelled from the spec: auth.create_access_token is not under src/;
spec §4.2 says it produces a signed, time-bounded token encoding a subject
claim.  Modelled as a tagged injection of the subject. -/
def create_access_token (sub : String) : String :=
  "signed-jwt$" ++ sub

namespace main

open Todo.crud Todo.schemas

/-- POST /users/ (main.create_user): pre-check the username, 400 if taken,
else insert via crud and serialize through response_model=schemas.User. -/
def create_user (user : UserCreate) (db : DB) : Resp Todo.schemas.User × DB :=
  match get_user_by_username db user.username with
  | some _ => (.err 400 "Username already registered", db)
  | none =>
    let (db1, db_user) := crud.create_user db user
    (.ok (toSchemaUser db_user), db1)

/-- POST /login (main.login): look the username up; if absent or the
password does not verify, 401; else issue a token with sub = username. -/
def login (username password : String) (db : DB) : Resp TokenOut :=
  match get_user_by_username db username with
  | none => .err 401 "Incorrect username or password"
  | some user =>
    if verify_password password user.hashed_password then
      .ok { access_token := create_access_token user.username, token_type := "bearer" }
    else
      .err 401 "Incorrect username or password"

/-- GET /users/ (main.read_users): admin only, then page of users
serialized through response_model=List[schemas.User]. -/
def read_users (skip limit : Nat) (current_user : Todo.schemas.User) (db : DB) :
    Resp (List Todo.schemas.User) :=
  if !current_user.is_admin then
    .err 403 "Admin access required"
  else
    .ok ((get_users db skip limit).map toSchemaUser)

/-- GET /users/{user_id} (main.read_user): 403 unless admin or self, then
404 if absent, else the user. -/
def read_user (user_id : Nat) (current_user : Todo.schemas.User) (db : DB) :
    Resp Todo.schemas.User :=
  if !current_user.is_admin && current_user.id != user_id then
    .err 403 "Not authorized to view this user"
  else
    match get_user db user_id with
    | none => .err 404 "User not found"
    | some db_user => .ok (toSchemaUser db_user)

/-- PUT /users/{user_id} (main.update_user): 403 unless admin or self —
checked before crud.update_user runs — then 404 on the not-found sentinel,
else the updated user. -/
def update_user (user_id : Nat) (user : UserUpdate) (current_user : Todo.schemas.User)
    (db : DB) : Resp Todo.schemas.User × DB :=
  if !current_user.is_admin && current_user.id != user_id then
    (.err 403 "Not authorized to update this user", db)
  else
    match crud.update_user db user_id user with
    | (db1, none) => (.err 404 "User not found", db1)
    | (db1, some db_user) => (.ok (toSchemaUser db_user), db1)

/-- DELETE /users/{user_id} (main.delete_user): 403 unless admin or self —
checked before crud.delete_user runs — then 404 on the sentinel, else a
detail message. -/
def delete_user (user_id : Nat) (current_user : Todo.schemas.User) (db : DB) :
    Resp String × DB :=
  if !current_user.is_admin && current_user.id != user_id then
    (.err 403 "Not authorized to delete this user", db)
  else
    match crud.delete_user db user_id with
    | (db1, none) => (.err 404 "User not found", db1)
    | (db1, some _) => (.ok "User deleted", db1)

/-- POST /tasks/ (main.create_task): owner forced to the caller. -/
def create_task (task : TaskCreate) (current_user : Todo.schemas.User) (db : DB) :
    Resp Todo.schemas.Task × DB :=
  let (db1, db_task) := crud.create_task db task current_user.id
  (.ok (toSchemaTask db_task), db1)

/-- GET /tasks/ (main.read_tasks): the caller's own page of tasks. -/
def read_tasks (skip limit : Nat) (current_user : Todo.schemas.User) (db : DB) :
    Resp (List Todo.schemas.Task) :=
  .ok ((get_tasks db current_user.id skip limit).map toSchemaTask)

/-- GET /tasks/{task_id} (main.read_task): 404 if absent, then 403 unless
the caller is the owner (no admin bypass), else the task. -/
def read_task (task_id : Nat) (current_user : Todo.schemas.User) (db : DB) :
    Resp Todo.schemas.Task :=
  match get_task db task_id with
  | none => .err 404 "Task not found"
  | some db_task =>
    if db_task.owner_id != current_user.id then
      .err 403 "Not authorized to view this task"
    else
      .ok (toSchemaTask db_task)

/-- PUT /tasks/{task_id} (main.update_task): 404 if absent, then 403
unless admin or owner, else the crud update's result.  The sentinel branch
after a successful existence check is unreachable in the source; were crud
to return None there, response_model validation would fail with a 500. -/
def update_task (task_id : Nat) (task : TaskUpdate) (current_user : Todo.schemas.User)
    (db : DB) : Resp Todo.schemas.Task × DB :=
  match get_task db task_id with
  | none => (.err 404 "Task not found", db)
  | some db_task =>
    if !current_user.is_admin && db_task.owner_id != current_user.id then
      (.err 403 "Not authorized to update this task", db)
    else
      match crud.update_task db task_id task with
      | (db1, none) => (.err 500 "Internal Server Error", db1)
      | (db1, some updated) => (.ok (toSchemaTask updated), db1)

/-- DELETE /tasks/{task_id} (main.delete_task): 404 if absent, then 403
unless admin or owner, else delete and return a detail message. -/
def delete_task (task_id : Nat) (current_user : Todo.schemas.User) (db : DB) :
    Resp String × DB :=
  match get_task db task_id with
  | none => (.err 404 "Task not found", db)
  | some db_task =>
    if !current_user.is_admin && db_task.owner_id != current_user.id then
      (.err 403 "Not authorized to delete this task", db)
    else
      let (db1, _) := crud.delete_task db task_id
      (.ok "Task deleted", db1)

end main

/-- A JSON scalar, enough to render the user representation. -/
inductive Jval where
  | jnum : Int → Jval
  | jstr : String → Jval
  | jbool : Bool → Jval
  deriving Repr, DecidableEq

/-- The JSON object FastAPI renders for a schemas.User body: exactly the
four declared fields, in declaration order. -/
def userJson (u : schemas.User) : List (String × Jval) :=
  [("id", .jnum u.id), ("username", .jstr u.username),
   ("email", .jstr u.email), ("is_admin", .jbool u.is_admin)]

/-! Concrete fixtures used to instantiate the theorems below. -/

/-- A stored non-admin user row. -/
def aliceRow : UserRec := ⟨1, "alice", "alice@example.com", "bcrypt$pw1", false⟩

/-- A stored admin user row. -/
def adminRow : UserRec := ⟨2, "root", "root@example.com", "bcrypt$pw2", true⟩

/-- A stored task owned by alice. -/
def task1 : TaskRec := ⟨1, "buy milk", some "2 liters", false, 1⟩

/-- A database holding both users and alice's task. -/
def dbMain : DB := ⟨[aliceRow, adminRow], [task1], 3, 2⟩

/-- Alice as the resolved current user. -/
def aliceUser : schemas.User := toSchemaUser aliceRow

/-- The admin as the resolved current user. -/
def adminUser : schemas.User := toSchemaUser adminRow

/-- An update payload with every key omitted. -/
def noUserUpdate : schemas.UserUpdate := ⟨none, none, none⟩

/-- A task update payload with every key omitted. -/
def noTaskUpdate : schemas.TaskUpdate := ⟨none, none, none⟩

/-- Claim C1: for PUT/DELETE /users/{id} the authorization predicate
(admin or self) is evaluated before the record service runs, so any caller
failing it on a nonexistent id still gets 403, not 404; for PUT/DELETE
/tasks/{id} existence is checked first, so a nonexistent task id yields
404 for every authenticated caller. -/
theorem c1_user403_task404_ordering
    (db : DB) (caller : schemas.User) (uid tid : Nat)
    (uupd : schemas.UserUpdate) (tupd : schemas.TaskUpdate) :
    (caller.is_admin = false → caller.id ≠ uid → crud.get_user db uid = none →
      (main.update_user uid uupd caller db).1
        = .err 403 "Not authorized to update this user" ∧
      (main.delete_user uid caller db).1
        = .err 403 "Not authorized to delete this user") ∧
    (crud.get_task db tid = none →
      (main.update_task tid tupd caller db).1 = .err 404 "Task not found" ∧
      (main.delete_task tid caller db).1 = .err 404 "Task not found") := by
  constructor
  · intro hadm hne _
    have hb : (caller.id != uid) = true := by simp [hne]
    exact ⟨by simp [main.update_user, hadm, hb], by simp [main.delete_user, hadm, hb]⟩
  · intro ht
    exact ⟨by simp [main.update_task, ht], by simp [main.delete_task, ht]⟩

/-- Instance of C1 at a concrete database: id 99 exists in neither table;
non-admin alice gets 403 from the user endpoints, and even admin root gets
404 from the task endpoints. -/
theorem c1_user403_task404_ordering_witness :
    (main.update_user 99 noUserUpdate aliceUser dbMain).1
      = .err 403 "Not authorized to update this user" ∧
    (main.delete_user 99 aliceUser dbMain).1
      = .err 403 "Not authorized to delete this user" ∧
    (main.update_task 99 noTaskUpdate adminUser dbMain).1 = .err 404 "Task not found" ∧
    (main.delete_task 99 adminUser dbMain).1 = .err 404 "Task not found" := by
  have h := c1_user403_task404_ordering dbMain aliceUser 99 99 noUserUpdate noTaskUpdate
  have h2 := c1_user403_task404_ordering dbMain adminUser 99 99 noUserUpdate noTaskUpdate
  exact ⟨(h.1 rfl (by decide) (by decide)).1, (h.1 rfl (by decide) (by decide)).2,
         (h2.2 (by decide)).1, (h2.2 (by decide)).2⟩

/-- Claim C2: an admin who does not own an existing task is refused the
read endpoint with 403 (the admin flag does not bypass the owner-only read
predicate) while the update and delete endpoints succeed with 200 for the
same caller. -/
theorem c2_admin_read403_update_delete_ok
    (db : DB) (caller : schemas.User) (t : TaskRec) (tupd : schemas.TaskUpdate)
    (ht : crud.get_task db t.id = some t)
    (hadm : caller.is_admin = true)
    (hown : caller.id ≠ t.owner_id) :
    main.read_task t.id caller db = .err 403 "Not authorized to view this task" ∧
    (main.update_task t.id tupd caller db).1
      = .ok (toSchemaTask (crud.applyTaskUpdate t tupd)) ∧
    (main.delete_task t.id caller db).1 = .ok "Task deleted" := by
  have hb : (t.owner_id != caller.id) = true := by
    simp only [bne_iff_ne, ne_eq]
    exact fun e => hown e.symm
  refine ⟨?_, ?_, ?_⟩
  · simp [main.read_task, ht, hb]
  · simp [main.update_task, crud.update_task, ht, hadm]
  · simp [main.delete_task, ht, hadm]

/-- Instance of C2: admin root (id 2) on alice's task 1. -/
theorem c2_admin_read403_update_delete_ok_witness :
    main.read_task 1 adminUser dbMain = .err 403 "Not authorized to view this task" ∧
    (main.update_task 1 noTaskUpdate adminUser dbMain).1
      = .ok (toSchemaTask (crud.applyTaskUpdate task1 noTaskUpdate)) ∧
    (main.delete_task 1 adminUser dbMain).1 = .ok "Task deleted" :=
  c2_admin_read403_update_delete_ok dbMain adminUser task1 noTaskUpdate
    (by decide) rfl (by decide)

/-- Claim C3 (refuted by the code): crud.update_user applies every key
present in the payload, is_admin included, and main.update_user checks
only admin-or-self, so the non-admin alice issuing
PUT /users/1 with payload containing is_admin = true ends with her stored
row and the response body both carrying is_admin = true. -/
theorem c3_self_service_admin_escalation :
    (main.update_user 1 ⟨none, none, some true⟩ aliceUser dbMain).1
      = .ok ⟨1, "alice", "alice@example.com", true⟩ ∧
    crud.get_user (main.update_user 1 ⟨none, none, some true⟩ aliceUser dbMain).2 1
      = some ⟨1, "alice", "alice@example.com", "bcrypt$pw1", true⟩ := by
  exact ⟨rfl, rfl⟩

/-- Claim C4: with the task present, crud.update_task applies exactly the
keys present in the payload: a payload setting only `completed` leaves
title and description unchanged and stores the payload value, and in
general every omitted field is untouched. -/
theorem c4_partial_update_frame
    (db : DB) (t : TaskRec) (upd : schemas.TaskUpdate)
    (ht : crud.get_task db t.id = some t) :
    (∀ b, upd.title = none → upd.description = none → upd.completed = some b →
      (crud.update_task db t.id upd).2 = some { t with completed := b }) ∧
    (crud.update_task db t.id upd).2 = some (crud.applyTaskUpdate t upd) ∧
    (upd.title = none → (crud.applyTaskUpdate t upd).title = t.title) ∧
    (upd.description = none → (crud.applyTaskUpdate t upd).description = t.description) ∧
    (upd.completed = none → (crud.applyTaskUpdate t upd).completed = t.completed) := by
  obtain ⟨ut, ud, uc⟩ := upd
  refine ⟨?_, ?_, ?_, ?_, ?_⟩
  · intro b h1 h2 h3
    cases h1; cases h2; cases h3
    simp [crud.update_task, ht, crud.applyTaskUpdate]
  · simp [crud.update_task, ht]
  · intro h1
    cases h1
    cases ud <;> cases uc <;> simp [crud.applyTaskUpdate]
  · intro h2
    cases h2
    cases ut <;> cases uc <;> simp [crud.applyTaskUpdate]
  · intro h3
    cases h3
    cases ut <;> cases ud <;> simp [crud.applyTaskUpdate]

/-- Instance of C4: marking task 1 completed, and only that, preserves
its title and description. -/
theorem c4_partial_update_frame_witness :
    (crud.update_task dbMain 1 ⟨none, none, some true⟩).2
      = some { task1 with completed := true } :=
  (c4_partial_update_frame dbMain task1 ⟨none, none, some true⟩ (by decide)).1
    true rfl rfl rfl

/-- Claim C5: POST /tasks/ always stores and returns completed = false:
schemas.TaskCreate declares no completed field (a body carrying one is
stripped by validation), and crud.create_task inserts with the modelled
column default false. -/
theorem c5_create_task_completed_false
    (caller : schemas.User) (tc : schemas.TaskCreate) (db : DB) :
    (main.create_task tc caller db).1
      = .ok ⟨db.nextTaskId, tc.title, tc.description, false⟩ ∧
    (crud.create_task db tc caller.id).2.completed = false :=
  ⟨rfl, rfl⟩

/-- Claim C6: registering a fresh username succeeds, and repeating the
same username is answered 400 with a detail containing "already
registered", leaving the store untouched. -/
theorem c6_duplicate_username_registration
    (db : DB) (u u2 : schemas.UserCreate)
    (hfresh : crud.get_user_by_username db u.username = none)
    (hsame : u2.username = u.username) :
    ∃ su db1,
      main.create_user u db = (.ok su, db1) ∧
      su.username = u.username ∧
      (main.create_user u2 db1).1 = .err 400 "Username already registered" ∧
      (main.create_user u2 db1).2 = db1 ∧
      ∃ pre post, "Username already registered" = pre ++ "already registered" ++ post := by
  refine ⟨toSchemaUser (crud.create_user db u).2, (crud.create_user db u).1, ?_, rfl, ?_, ?_,
    "Username ", "", rfl⟩
  · simp [main.create_user, hfresh]
  · have key : crud.get_user_by_username (crud.create_user db u).1 u2.username
        = some (crud.create_user db u).2 := by
      unfold crud.get_user_by_username at hfresh ⊢
      rw [hsame]
      simp only [crud.create_user, List.find?_append, hfresh]
      simp
    simp [main.create_user, key]
  · have key : crud.get_user_by_username (crud.create_user db u).1 u2.username
        = some (crud.create_user db u).2 := by
      unfold crud.get_user_by_username at hfresh ⊢
      rw [hsame]
      simp only [crud.create_user, List.find?_append, hfresh]
      simp
    simp [main.create_user, key]

/-- Instance of C6: registering "bob" twice against the concrete store. -/
theorem c6_duplicate_username_registration_witness :
    ∃ su db1,
      main.create_user ⟨"bob", "bob@example.com", "pw", false⟩ dbMain = (.ok su, db1) ∧
      su.username = "bob" ∧
      (main.create_user ⟨"bob", "bob@example.com", "pw", false⟩ db1).1
        = .err 400 "Username already registered" ∧
      (main.create_user ⟨"bob", "bob@example.com", "pw", false⟩ db1).2 = db1 ∧
      ∃ pre post, "Username already registered" = pre ++ "already registered" ++ post :=
  c6_duplicate_username_registration dbMain
    ⟨"bob", "bob@example.com", "pw", false⟩ ⟨"bob", "bob@example.com", "pw", false⟩
    (by decide) rfl

/-- Claim C7: POST /login answers 200 with a bearer token when the
username resolves and the password verifies against the stored hash, and
401 when the username is absent or verification fails. -/
theorem c7_login_success_and_401
    (db : DB) (username password : String) :
    (∀ u, crud.get_user_by_username db username = some u →
      crud.verify_password password u.hashed_password = true →
      main.login username password db
        = .ok ⟨create_access_token u.username, "bearer"⟩) ∧
    (crud.get_user_by_username db username = none →
      main.login username password db = .err 401 "Incorrect username or password") ∧
    (∀ u, crud.get_user_by_username db username = some u →
      crud.verify_password password u.hashed_password = false →
      main.login username password db = .err 401 "Incorrect username or password") := by
  refine ⟨?_, ?_, ?_⟩
  · intro u hu hv
    simp [main.login, hu, hv]
  · intro h
    simp [main.login, h]
  · intro u hu hv
    simp [main.login, hu, hv]

/-- Instance of C7: alice's stored hash verifies her password; a missing
username and a wrong password are both 401. -/
theorem c7_login_success_and_401_witness :
    main.login "alice" "pw1" dbMain = .ok ⟨create_access_token "alice", "bearer"⟩ ∧
    main.login "nobody" "pw1" dbMain = .err 401 "Incorrect username or password" ∧
    main.login "alice" "wrong" dbMain = .err 401 "Incorrect username or password" :=
  ⟨(c7_login_success_and_401 dbMain "alice" "pw1").1 aliceRow rfl rfl,
   (c7_login_success_and_401 dbMain "nobody" "pw1").2.1 rfl,
   (c7_login_success_and_401 dbMain "alice" "wrong").2.2 aliceRow rfl rfl⟩

/-- Claim C10: the two login failure causes produce the very same
response — 401 with the identical detail string — so the client cannot
tell an unknown username from a wrong password. -/
theorem c10_login_failures_indistinguishable
    (db1 db2 : DB) (un1 pw1 un2 pw2 : String) (u : UserRec)
    (h1 : crud.get_user_by_username db1 un1 = none)
    (hu : crud.get_user_by_username db2 un2 = some u)
    (hv : crud.verify_password pw2 u.hashed_password = false) :
    main.login un1 pw1 db1 = .err 401 "Incorrect username or password" ∧
    main.login un2 pw2 db2 = .err 401 "Incorrect username or password" ∧
    main.login un1 pw1 db1 = main.login un2 pw2 db2 := by
  have a : main.login un1 pw1 db1 = .err 401 "Incorrect username or password" := by
    simp [main.login, h1]
  have b : main.login un2 pw2 db2 = .err 401 "Incorrect username or password" := by
    simp [main.login, hu, hv]
  exact ⟨a, b, a.trans b.symm⟩

/-- Instance of C10: unknown username "nobody" and alice with a wrong
password yield literally equal responses. -/
theorem c10_login_failures_indistinguishable_witness :
    main.login "nobody" "pw1" dbMain = .err 401 "Incorrect username or password" ∧
    main.login "alice" "wrong" dbMain = .err 401 "Incorrect username or password" ∧
    main.login "nobody" "pw1" dbMain = main.login "alice" "wrong" dbMain :=
  c10_login_failures_indistinguishable dbMain dbMain "nobody" "pw1" "alice" "wrong"
    aliceRow rfl rfl rfl

/-- Claim C8: every user-returning endpoint serializes through
schemas.User, whose rendered object carries exactly the keys id, username,
email and is_admin — no password field — and whose value is insensitive to
the stored hash. -/
theorem c8_user_serialization_never_password :
    (∀ rec : UserRec, (userJson (toSchemaUser rec)).map Prod.fst
        = ["id", "username", "email", "is_admin"]) ∧
    (∀ (rec : UserRec) (hp : String),
        toSchemaUser { rec with hashed_password := hp } = toSchemaUser rec) ∧
    (∀ (user : schemas.UserCreate) (db : DB) (su : schemas.User) (db1 : DB),
        main.create_user user db = (.ok su, db1) →
        su = toSchemaUser (crud.create_user db user).2) ∧
    (∀ (skip limit : Nat) (cu : schemas.User) (db : DB) (l : List schemas.User),
        main.read_users skip limit cu db = .ok l →
        ∀ su ∈ l, ∃ rec, rec ∈ db.users ∧ su = toSchemaUser rec) ∧
    (∀ (uid : Nat) (cu : schemas.User) (db : DB) (rec : UserRec),
        crud.get_user db uid = some rec →
        ∀ su, main.read_user uid cu db = .ok su → su = toSchemaUser rec) ∧
    (∀ (db : DB) (uid : Nat) (upd : schemas.UserUpdate) (rec : UserRec),
        (crud.update_user db uid upd).2 = some rec →
        ∀ (cu su : schemas.User) (db1 : DB),
          main.update_user uid upd cu db = (.ok su, db1) → su = toSchemaUser rec) := by
  refine ⟨fun rec => rfl, fun rec hp => rfl, ?_, ?_, ?_, ?_⟩
  · intro user db su db1 h
    rcases hfind : crud.get_user_by_username db user.username with _ | w
    · simp [main.create_user, hfind] at h
      exact h.1.symm
    · simp [main.create_user, hfind] at h
  · intro skip limit cu db l h su hsu
    cases hadm : cu.is_admin with
    | false => simp [main.read_users, hadm] at h
    | true =>
      simp [main.read_users, hadm] at h
      rw [← h] at hsu
      rcases List.mem_map.mp hsu with ⟨rec, hrec, he⟩
      have su2 : List.Sublist (crud.get_users db skip limit) db.users :=
        (List.take_sublist _ _).trans (List.drop_sublist _ _)
      exact ⟨rec, su2.mem hrec, he.symm⟩
  · intro uid cu db rec hget su h
    cases hc : (!cu.is_admin && cu.id != uid) with
    | true => simp [main.read_user, hc] at h
    | false =>
      simp [main.read_user, hc, hget] at h
      exact h.symm
  · intro db uid upd rec h2 cu su db1 h
    cases hc : (!cu.is_admin && cu.id != uid) with
    | true => simp [main.update_user, hc] at h
    | false =>
      rcases hp : crud.update_user db uid upd with ⟨db2, orec⟩
      rw [hp] at h2
      simp only at h2
      subst h2
      simp [main.update_user, hc, hp] at h
      exact h.1.symm

/-- Instance of C8: the rendered keys for alice's row, hash-insensitivity,
and the read endpoint's body for her row. -/
theorem c8_user_serialization_never_password_witness :
    (userJson (toSchemaUser aliceRow)).map Prod.fst
      = ["id", "username", "email", "is_admin"] ∧
    toSchemaUser { aliceRow with hashed_password := "other" } = toSchemaUser aliceRow ∧
    aliceUser = toSchemaUser aliceRow :=
  ⟨c8_user_serialization_never_password.1 aliceRow,
   c8_user_serialization_never_password.2.1 aliceRow "other",
   c8_user_serialization_never_password.2.2.2.2.1 1 adminUser dbMain aliceRow rfl
     aliceUser rfl⟩

/-- Claim C9: GET /tasks/ lists only tasks owned by the caller, while the
service-level point lookup crud.get_task ignores ownership entirely —
rewriting every row's owner arbitrarily changes nothing about which row an
id resolves to. -/
theorem c9_list_owner_scoped_lookup_owner_agnostic
    (db : DB) (caller : schemas.User) (skip limit : Nat) :
    (∀ t ∈ crud.get_tasks db caller.id skip limit, t.owner_id = caller.id) ∧
    (main.read_tasks skip limit caller db
      = .ok ((crud.get_tasks db caller.id skip limit).map toSchemaTask)) ∧
    (∀ (f : Nat → Nat) (tid : Nat),
      crud.get_task
        { db with tasks := db.tasks.map (fun t => { t with owner_id := f t.owner_id }) } tid
      = (crud.get_task db tid).map (fun t => { t with owner_id := f t.owner_id })) := by
  refine ⟨?_, rfl, ?_⟩
  · intro t ht
    have s : List.Sublist (crud.get_tasks db caller.id skip limit)
        (db.tasks.filter (fun t => t.owner_id == caller.id)) :=
      (List.take_sublist _ _).trans (List.drop_sublist _ _)
    have h1 := (List.mem_filter.mp (s.mem ht)).2
    simpa using h1
  · intro f tid
    simp only [crud.get_task]
    rw [List.find?_map]
    rfl

/-- Instance of C9: alice's listing contains her task, and the lookup of
id 1 still resolves after every owner is rewritten to 42. -/
theorem c9_list_owner_scoped_lookup_owner_agnostic_witness :
    task1.owner_id = aliceUser.id ∧
    crud.get_task
        { dbMain with tasks := dbMain.tasks.map (fun t => { t with owner_id := 42 }) } 1
      = some { task1 with owner_id := 42 } := by
  have h := c9_list_owner_scoped_lookup_owner_agnostic dbMain aliceUser 0 100
  refine ⟨h.1 task1 (by decide), ?_⟩
  rw [h.2.2 (fun _ => 42) 1]
  rfl

end Todo
